import Mathlib

/-!
Shallow embedding of the real-time synchronization subsystem of the
`colonies-ts` examples: the browser-side reconciliation state model and
reconnection controller (`examples/data-logger/public/app.js`) and the
WebSocket proxy bridge of the web server.

Definitions are translated from the JavaScript source; JS `undefined`
becomes `Option`, JS object-field access `x?.f` becomes `Option.bind`,
JS truthiness of strings (empty string is falsy) is modelled explicitly.
-/

namespace Colonies

/-- A device configuration object (`spec` or `status` in the source): the
model only ever reads `appVersion`; the remaining fields of the JS object
are carried opaquely as a key/value list so that whole-object replacement
versus field merging is observable. -/
structure DeviceObj where
  appVersion : Option String
  otherFields : List (String × String)
deriving DecidableEq, Repr

/-- `currentDevice = { spec, status }` in app.js: the Desired/Actual Pair.
Either half may be `undefined` in JS, hence `Option`. -/
structure CurrentDevice where
  spec : Option DeviceObj
  status : Option DeviceObj
deriving DecidableEq, Repr

/-- One entry of `activityLog`: `{ time, message, type }`. -/
structure ActivityEntry where
  time : Nat
  message : String
  type : String
deriving DecidableEq, Repr

/-- JS truthiness of a possibly-undefined string: `undefined` and the
empty string are falsy. -/
def truthy : Option String → Bool
  | none => false
  | some s => s ≠ ""

/-- `logActivity` in app.js: `activityLog.unshift(entry); if
(activityLog.length > 50) activityLog.pop();` — insert at the head, then
drop the tail element if the bound of 50 is exceeded. -/
def logActivity (log : List ActivityEntry) (e : ActivityEntry) : List ActivityEntry :=
  let log' := e :: log
  if log'.length > 50 then log'.dropLast else log'

/-- The state the browser model mutates: `currentDevice` and `activityLog`. -/
structure ModelState where
  currentDevice : Option CurrentDevice
  activityLog : List ActivityEntry
deriving DecidableEq, Repr

/-- Renders an optional version the way JS string interpolation does in
the branches where the value is known truthy. -/
def showVer (v : Option String) : String := v.getD "undefined"

/-- `updateDevice(spec, status)` in app.js, the pure reducer part
(the DOM rendering calls at the end are out of scope).  Captures
`oldSpec` from the previous pair, replaces `currentDevice` wholesale,
then appends version-change / deployed / reconciling activity entries
exactly under the source's conditions. -/
def updateDevice (time : Nat) (spec status : Option DeviceObj)
    (st : ModelState) : ModelState :=
  let oldSpec := st.currentDevice.bind (·.spec)
  let oldVersion := oldSpec.bind (·.appVersion)
  let newVersion := spec.bind (·.appVersion)
  let actualVersion := status.bind (·.appVersion)
  let log1 :=
    if truthy oldVersion ∧ truthy newVersion ∧ oldVersion ≠ newVersion then
      logActivity st.activityLog
        ⟨time, "Desired version: v" ++ showVer oldVersion ++ " → v" ++ showVer newVersion, "info"⟩
    else st.activityLog
  let isSynced := status.isSome && (newVersion == actualVersion)
  let log2 :=
    if isSynced ∧ truthy oldVersion ∧ oldVersion ≠ newVersion then
      logActivity log1 ⟨time, "Deployed v" ++ showVer newVersion ++ " ✓", "success"⟩
    else if ¬ isSynced ∧ truthy actualVersion ∧ newVersion ≠ actualVersion then
      logActivity log1 ⟨time, "Reconciling: v" ++ showVer actualVersion ++ " → v" ++ showVer newVersion, "reconciling"⟩
    else log1
  { currentDevice := some ⟨spec, status⟩, activityLog := log2 }

/-- A parsed downstream frame as seen by `ws.onmessage`: the two
recognized shapes, any other `type` value, and an undecodable payload
(`JSON.parse` throwing). -/
inductive WsMessage where
  | init (devices : List (String × CurrentDevice))
  | update (device : String) (spec status : Option DeviceObj)
  | other (ty : String)
  | malformed (raw : String)
deriving DecidableEq, Repr

/-- JS object-property lookup on the `devices` mapping. -/
def lookupDevice (devices : List (String × CurrentDevice)) (id : String) :
    Option CurrentDevice :=
  (devices.find? (fun p => p.fst = id)).map (·.snd)

/-- Result of one `ws.onmessage` invocation: the new model state, whether
the handler closed the connection (the source handler never calls
`ws.close()`), and whether `flashReconcile` was triggered. -/
structure StepResult where
  state : ModelState
  closedConn : Bool
  flashed : Bool
deriving DecidableEq, Repr

/-- `ws.onmessage` in app.js, per parsed message shape.  The `init`
branch looks up only `message.devices?.['data-logger-1']`; the `update`
branch applies `message.spec`/`message.status` without consulting
`message.device`; an unknown `type` is logged to the console only; a
parse error appends an error activity entry.  No branch closes the
socket. -/
def processMessage (time : Nat) (msg : WsMessage) (st : ModelState) : StepResult :=
  match msg with
  | .init devices =>
      match lookupDevice devices "data-logger-1" with
      | some device =>
          let st1 : ModelState :=
            { st with activityLog :=
                logActivity st.activityLog ⟨time, "Connected - received device state", "info"⟩ }
          ⟨updateDevice time device.spec device.status st1, false, false⟩
      | none => ⟨st, false, false⟩
  | .update device spec status =>
      let st1 : ModelState :=
        { st with activityLog :=
            logActivity st.activityLog ⟨time, "State updated: " ++ device, "success"⟩ }
      ⟨updateDevice time spec status st1, false, true⟩
  | .other _ => ⟨st, false, false⟩
  | .malformed _ =>
      ⟨{ st with activityLog :=
          logActivity st.activityLog ⟨time, "Error: unexpected token", "error"⟩ },
       false, false⟩

/-- Processing a timed sequence of frames, in delivery order. -/
def processMessages (evs : List (Nat × WsMessage)) (st : ModelState) : ModelState :=
  evs.foldl (fun s ev => (processMessage ev.1 ev.2 s).state) st

/-- Derived synchronization status shown by `renderStateComparison`. -/
inductive SyncStatus where
  | unknown
  | synced
  | pending
deriving DecidableEq, Repr

/-- `renderStateComparison` in app.js: `isSynced = status &&
desiredVersion === actualVersion`; the arrow is `?` when no status, `=`
when synced, `→` otherwise. -/
def syncStatus (spec status : Option DeviceObj) : SyncStatus :=
  let desiredVersion := spec.bind (·.appVersion)
  let actualVersion := status.bind (·.appVersion)
  let isSynced := status.isSome && (desiredVersion == actualVersion)
  if status.isNone then .unknown
  else if isSynced then .synced
  else .pending

/-! ## Reconnection controller (browser side) -/

/-- WebSocket `readyState` values. -/
inductive ReadyState where
  | connecting
  | opened
  | closing
  | closed
deriving DecidableEq, Repr

/-- A browser WebSocket handle, reduced to the one field the controller
reads. -/
structure Socket where
  readyState : ReadyState
deriving DecidableEq, Repr

/-- The module-level connection state of app.js: `ws` (nullable handle)
and the `wsConnecting` flag. -/
structure ControllerState where
  ws : Option Socket
  wsConnecting : Bool
deriving DecidableEq, Repr

/-- `connectWebSocket()` in app.js.  Returns the new state and whether a
new WebSocket was constructed.  `urlPresent` models
`config.reconcilerWsUrl` being set; `createFails` models the
`new WebSocket` constructor throwing (caught, resets `wsConnecting`). -/
def connectWebSocket (urlPresent createFails : Bool) (st : ControllerState) :
    ControllerState × Bool :=
  if st.wsConnecting || (match st.ws with
      | some s => s.readyState == .opened
      | none => false) then
    (st, false)
  else if !urlPresent then
    (st, false)
  else if createFails then
    ({ st with wsConnecting := false }, false)
  else
    ({ ws := some ⟨.connecting⟩, wsConnecting := true }, true)

/-- `ws.onclose` in app.js: the socket is closed, `wsConnecting` is
cleared, and `setTimeout(connectWebSocket, 2000)` schedules a retry.
Returns the new state and the scheduled retry delay in milliseconds. -/
def wsOnClose (st : ControllerState) : ControllerState × Nat :=
  ({ ws := st.ws.map (fun _ => ⟨.closed⟩), wsConnecting := false }, 2000)

/-- The connect-timeout watchdog body in `connectWebSocket` (fires 1500ms
after the attempt): `if (ws.readyState !== WebSocket.OPEN) { log; if
(isSafari) location.reload(); }`.  It mutates no connection state;
returns the (unchanged) state and whether a full page reload was
triggered. -/
def watchdogFire (isSafari : Bool) (s : Socket) (st : ControllerState) :
    ControllerState × Bool :=
  if s.readyState ≠ .opened then
    (st, isSafari)
  else
    (st, false)

/-! ## Connection bridge (server side, WebSocket proxy) -/

/-- State of one Connection Bridge instance, instrumented with the
observable effects the handlers perform: `clearInterval` invocations,
`close()` calls issued on each side, and the frames actually delivered. -/
structure BridgeState where
  clientState : ReadyState
  reconcilerState : ReadyState
  pingTimerActive : Bool
  clearIntervalCalls : Nat
  clientCloseCalls : Nat
  reconcilerCloseCalls : Nat
  deliveredToClient : List String
  deliveredToReconciler : List String
deriving DecidableEq, Repr

/-- Bridge as created by `setupConnection`: both sockets live, keepalive
timer running, no teardown effects yet. -/
def initialBridge : BridgeState :=
  ⟨.opened, .opened, true, 0, 0, 0, [], []⟩

/-- Events delivered to the bridge's handlers. -/
inductive BridgeEvent where
  | clientMessage (data : String)
  | reconcilerMessage (data : String)
  | clientClose
  | reconcilerClose
  | clientError
  | reconcilerError
deriving DecidableEq, Repr

/-- One handler invocation of the proxy in the web server, per the
`wss.on('connection')` body:
* `reconcilerWs.on('message')` forwards to the browser only if
  `clientWs.readyState === OPEN`, else the frame is dropped;
* `clientWs.on('message')` forwards upstream only if
  `reconcilerWs.readyState === OPEN`, else dropped;
* `clientWs.on('close')` calls `clearInterval(pingInterval)` and
  `reconcilerWs.close()`;
* `reconcilerWs.on('close')` calls `clearInterval(pingInterval)` and
  `clientWs.close()`;
* `clientWs.on('error')` calls `reconcilerWs.close()` (no clearInterval);
* `reconcilerWs.on('error')` calls `clientWs.close()` (no clearInterval).
There is no already-closing guard anywhere in the source. -/
def stepBridge (st : BridgeState) (ev : BridgeEvent) : BridgeState :=
  match ev with
  | .reconcilerMessage data =>
      if st.clientState = .opened then
        { st with deliveredToClient := st.deliveredToClient ++ [data] }
      else st
  | .clientMessage data =>
      if st.reconcilerState = .opened then
        { st with deliveredToReconciler := st.deliveredToReconciler ++ [data] }
      else st
  | .clientClose =>
      { st with clientState := .closed,
                pingTimerActive := false,
                clearIntervalCalls := st.clearIntervalCalls + 1,
                reconcilerCloseCalls := st.reconcilerCloseCalls + 1 }
  | .reconcilerClose =>
      { st with reconcilerState := .closed,
                pingTimerActive := false,
                clearIntervalCalls := st.clearIntervalCalls + 1,
                clientCloseCalls := st.clientCloseCalls + 1 }
  | .clientError =>
      { st with reconcilerCloseCalls := st.reconcilerCloseCalls + 1 }
  | .reconcilerError =>
      { st with clientCloseCalls := st.clientCloseCalls + 1 }

/-- A run of the bridge over a sequence of events. -/
def runBridge (evs : List BridgeEvent) : BridgeState :=
  evs.foldl stepBridge initialBridge

/-- The pair a message causes `updateDevice` to install, if any: an
`update` applies its carried pair regardless of its device field; an
`init` applies the entry found under `data-logger-1`, if present; other
shapes apply nothing. -/
def appliedPair : WsMessage → Option (Option DeviceObj × Option DeviceObj)
  | .init devices => (lookupDevice devices "data-logger-1").map (fun d => (d.spec, d.status))
  | .update _ spec status => some (spec, status)
  | .other _ => none
  | .malformed _ => none

/-! ## Theorems -/

/-- Helper: one `onmessage` step installs exactly the applied pair, or
leaves `currentDevice` untouched when the message applies nothing. -/
theorem processMessage_currentDevice (t : Nat) (m : WsMessage) (st : ModelState) :
    (processMessage t m st).state.currentDevice =
      match appliedPair m with
      | some p => some ⟨p.1, p.2⟩
      | none => st.currentDevice := by
  cases m with
  | init devices =>
      simp only [processMessage, appliedPair]
      cases h : lookupDevice devices "data-logger-1" with
      | none => simp
      | some d => simp [updateDevice]
  | update device spec status => simp [processMessage, appliedPair, updateDevice]
  | other ty => rfl
  | malformed raw => rfl

/-- C1 (amended): after processing any message sequence, the single held
Desired/Actual Pair equals exactly the `(spec, status)` carried by the
most recently processed applying message — any `update` message
(regardless of its `device` field), or an `init` carrying an entry for
`data-logger-1` — installed by whole replacement; if no message applied,
the pair is unchanged from the initial state. -/
theorem lastWriteWins (evs : List (Nat × WsMessage)) (st : ModelState) :
    (processMessages evs st).currentDevice =
      match evs.reverse.findSome? (fun ev => appliedPair ev.2) with
      | some p => some ⟨p.1, p.2⟩
      | none => st.currentDevice := by
  induction evs using List.reverseRecOn generalizing st with
  | nil => rfl
  | append_singleton as a ih =>
      have hfold : processMessages (as ++ [a]) st =
          (processMessage a.1 a.2 (processMessages as st)).state := by
        simp [processMessages, List.foldl_append]
      rw [hfold, processMessage_currentDevice, List.reverse_append]
      simp only [List.reverse_singleton, List.singleton_append, List.findSome?_cons]
      cases h : appliedPair a.2 with
      | none => simp only [h]; exact ih st
      | some p => simp only [h]

/-- C1 counterexample: an `update` naming a different device (`d2`)
still overwrites the held pair, so after `[update d1 (1.0,1.0), update
d2 (9.9,9.9)]` the pair no longer equals the fields of the most recent
message referencing `d1` — the `update` branch never consults
`message.device`. -/
theorem lastWriteWins_counterexample :
    (processMessages
        [(0, .update "d1" (some ⟨some "1.0", []⟩) (some ⟨some "1.0", []⟩)),
         (1, .update "d2" (some ⟨some "9.9", []⟩) (some ⟨some "9.9", []⟩))]
        ⟨none, []⟩).currentDevice =
      some ⟨some ⟨some "9.9", []⟩, some ⟨some "9.9", []⟩⟩ ∧
    (some (CurrentDevice.mk (some ⟨some "9.9", []⟩) (some ⟨some "9.9", []⟩)) ≠
      some (CurrentDevice.mk (some ⟨some "1.0", []⟩) (some ⟨some "1.0", []⟩))) := by
  constructor
  · rfl
  · decide

/-- C2: the derived Sync Status of a Desired/Actual Pair is `synced` iff
a status is present and its application version equals the desired
application version; `pending` iff a status is present and the versions
differ; `unknown` iff no status is present. -/
theorem syncStatus_characterization (spec status : Option DeviceObj) :
    (syncStatus spec status = .synced ↔
      status.isSome ∧ spec.bind (·.appVersion) = status.bind (·.appVersion)) ∧
    (syncStatus spec status = .pending ↔
      status.isSome ∧ spec.bind (·.appVersion) ≠ status.bind (·.appVersion)) ∧
    (syncStatus spec status = .unknown ↔ status = none) := by
  cases status with
  | none => simp [syncStatus]
  | some s =>
      simp only [syncStatus, Option.some_bind]
      by_cases h : spec.bind (·.appVersion) = s.appVersion
      · simp [h]
      · simp [h]

/-- C4 counterexample: after processing `update d1 (spec 2.0, status
1.0)` then `update d1 (spec 2.0, status 2.0)` from the empty model, the
derived status is `synced` but the head of the activity log is the
generic `State updated: d1` entry — no `Deployed v2.0 ✓` entry exists
anywhere in the log, because the deployed entry requires the desired
version to have changed on the syncing message. -/
theorem deployScenario_counterexample :
    (processMessages
        [(0, .update "d1" (some ⟨some "2.0", []⟩) (some ⟨some "1.0", []⟩)),
         (1, .update "d1" (some ⟨some "2.0", []⟩) (some ⟨some "2.0", []⟩))]
        ⟨none, []⟩).activityLog.head? = some ⟨1, "State updated: d1", "success"⟩ ∧
    ((processMessages
        [(0, .update "d1" (some ⟨some "2.0", []⟩) (some ⟨some "1.0", []⟩)),
         (1, .update "d1" (some ⟨some "2.0", []⟩) (some ⟨some "2.0", []⟩))]
        ⟨none, []⟩).activityLog.all (fun e => e.message ≠ "Deployed v2.0 ✓")) = true := by
  constructor
  · rfl
  · decide

/-- C4 (amended): in the two-update scenario the final Sync Status for
`d1` is `synced`, but the activity log's head entry is the generic
`State updated: d1` entry (severity `success`); the full log is exactly
the two generic update entries plus one `Reconciling` entry — no
deployment entry is appended since the desired version never changed. -/
theorem deployScenario_amended :
    (match (processMessages
        [(0, .update "d1" (some ⟨some "2.0", []⟩) (some ⟨some "1.0", []⟩)),
         (1, .update "d1" (some ⟨some "2.0", []⟩) (some ⟨some "2.0", []⟩))]
        ⟨none, []⟩).currentDevice with
      | some d => syncStatus d.spec d.status
      | none => .unknown) = .synced ∧
    (processMessages
        [(0, .update "d1" (some ⟨some "2.0", []⟩) (some ⟨some "1.0", []⟩)),
         (1, .update "d1" (some ⟨some "2.0", []⟩) (some ⟨some "2.0", []⟩))]
        ⟨none, []⟩).activityLog =
      [⟨1, "State updated: d1", "success"⟩,
       ⟨0, "Reconciling: v1.0 → v2.0", "reconciling"⟩,
       ⟨0, "State updated: d1", "success"⟩] := by
  constructor
  · rfl
  · rfl

/-- C5: starting from the empty log, any sequence of `logActivity`
appends keeps the length at most 50; each append places the new entry at
the head and keeps exactly the first 49 previous entries below it, so
only the oldest (tail) entry is ever evicted and no retained entry is
altered. -/
theorem activityLog_bounded :
    (∀ es : List ActivityEntry, (es.foldl logActivity []).length ≤ 50) ∧
    (∀ (log : List ActivityEntry) (e : ActivityEntry), log.length ≤ 50 →
      (logActivity log e).length ≤ 50 ∧
      (logActivity log e).head? = some e ∧
      (logActivity log e).tail = log.take 49) := by
  have hstep : ∀ (log : List ActivityEntry) (e : ActivityEntry), log.length ≤ 50 →
      (logActivity log e).length ≤ 50 ∧
      (logActivity log e).head? = some e ∧
      (logActivity log e).tail = log.take 49 := by
    intro log e hle
    unfold logActivity
    by_cases hlen : (e :: log).length > 50
    · have hlog : log.length = 50 := by
        simp only [List.length_cons] at hlen
        omega
      simp only [hlen, if_true]
      refine ⟨?_, ?_, ?_⟩
      · simp [List.length_dropLast, hlog]
      · have hne : log ≠ [] := by
          intro hc
          rw [hc] at hlog
          simp at hlog
        cases log with
        | nil => simp at hlog
        | cons a as => simp [List.dropLast]
      · cases log with
        | nil => simp at hlog
        | cons a as =>
            have : (e :: a :: as).dropLast = e :: (a :: as).dropLast := by
              simp [List.dropLast]
            rw [this]
            simp only [List.tail_cons]
            rw [List.dropLast_eq_take]
            have : (a :: as).length - 1 = 49 := by
              simp only [List.length_cons] at hlog ⊢
              omega
            rw [this]
    · simp only [hlen, if_false]
      refine ⟨?_, rfl, ?_⟩
      · simp only [List.length_cons] at hlen ⊢
        omega
      · have h49 : log.length ≤ 49 := by
          simp only [List.length_cons] at hlen
          omega
        simp [List.take_of_length_le h49]
  refine ⟨?_, hstep⟩
  intro es
  suffices h : ∀ (log : List ActivityEntry), log.length ≤ 50 →
      (es.foldl logActivity log).length ≤ 50 by
    exact h [] (by simp)
  induction es with
  | nil => intro log hle; simpa using hle
  | cons e es ih =>
      intro log hle
      simpa using ih (logActivity log e) (hstep log e hle).1

/-- Witness for `activityLog_bounded` at a concrete one-entry log. -/
theorem activityLog_bounded_witness :
    (logActivity [⟨0, "a", "info"⟩] ⟨1, "b", "info"⟩).length ≤ 50 ∧
    (logActivity [⟨0, "a", "info"⟩] ⟨1, "b", "info"⟩).head? = some ⟨1, "b", "info"⟩ ∧
    (logActivity [⟨0, "a", "info"⟩] ⟨1, "b", "info"⟩).tail =
      [(⟨0, "a", "info"⟩ : ActivityEntry)].take 49 :=
  activityLog_bounded.2 [⟨0, "a", "info"⟩] ⟨1, "b", "info"⟩ (by simp)

/-- C6: a connect request while `wsConnecting` is set or the current
socket is OPEN returns immediately — same state, no socket constructed;
and `ws.onclose` always schedules a retry after the fixed 2000ms delay,
after which the connect attempt from the closed state does construct a
socket (the delay is a constant: no backoff state or attempt counter
exists). -/
theorem connect_idempotent_and_retry :
    (∀ (u cf : Bool) (st : ControllerState),
      st.wsConnecting = true ∨ st.ws = some ⟨.opened⟩ →
        connectWebSocket u cf st = (st, false)) ∧
    (∀ st : ControllerState,
      (wsOnClose st).2 = 2000 ∧
      (connectWebSocket true false (wsOnClose st).1).2 = true) := by
  constructor
  · intro u cf st h
    unfold connectWebSocket
    rcases h with h | h
    · simp [h]
    · simp [h]
  · intro st
    refine ⟨rfl, ?_⟩
    unfold connectWebSocket wsOnClose
    cases st.ws <;> simp

/-- Witness for `connect_idempotent_and_retry` at concrete states. -/
theorem connect_idempotent_and_retry_witness :
    connectWebSocket true false ⟨none, true⟩ = (⟨none, true⟩, false) ∧
    (wsOnClose ⟨some ⟨.opened⟩, false⟩).2 = 2000 ∧
    (connectWebSocket true false (wsOnClose ⟨some ⟨.opened⟩, false⟩).1).2 = true :=
  ⟨connect_idempotent_and_retry.1 true false ⟨none, true⟩ (Or.inl rfl),
   (connect_idempotent_and_retry.2 ⟨some ⟨.opened⟩, false⟩).1,
   (connect_idempotent_and_retry.2 ⟨some ⟨.opened⟩, false⟩).2⟩

/-- C7 counterexample: an `init` whose mapping contains only device `d2`
leaves the model state entirely unchanged — `d2`'s pair is never
installed, because the `init` branch reads only
`message.devices?.['data-logger-1']`. -/
theorem init_counterexample :
    processMessage 0 (.init [("d2", ⟨some ⟨some "3.0", []⟩, some ⟨some "3.0", []⟩⟩)])
        ⟨none, []⟩ = ⟨⟨none, []⟩, false, false⟩ ∧
    (⟨none, []⟩ : ModelState).currentDevice ≠
      some ⟨some ⟨some "3.0", []⟩, some ⟨some "3.0", []⟩⟩ := by
  constructor
  · rfl
  · decide

/-- C7 (amended): an `init` message applies only the entry keyed
`data-logger-1`: when present, the held pair is replaced wholesale by
that entry's `{spec, status}`; entries for every other device are
ignored, and when no `data-logger-1` entry exists the state is returned
unchanged. -/
theorem init_applies_only_dataLogger1 (t : Nat)
    (devices : List (String × CurrentDevice)) (st : ModelState) :
    ((processMessage t (.init devices) st).state.currentDevice =
      match lookupDevice devices "data-logger-1" with
      | some d => some ⟨d.spec, d.status⟩
      | none => st.currentDevice) ∧
    (lookupDevice devices "data-logger-1" = none →
      processMessage t (.init devices) st = ⟨st, false, false⟩) := by
  constructor
  · have h := processMessage_currentDevice t (.init devices) st
    rw [h]
    simp only [appliedPair]
    cases lookupDevice devices "data-logger-1" <;> simp
  · intro h
    simp [processMessage, h]

/-- Witness for `init_applies_only_dataLogger1` at a concrete mapping
without a `data-logger-1` entry. -/
theorem init_applies_only_dataLogger1_witness :
    ((processMessage 0 (.init [("d9", ⟨none, none⟩)]) ⟨none, []⟩).state.currentDevice =
      match lookupDevice [("d9", ⟨none, none⟩)] "data-logger-1" with
      | some d => some ⟨d.spec, d.status⟩
      | none => (⟨none, []⟩ : ModelState).currentDevice) ∧
    processMessage 0 (.init [("d9", ⟨none, none⟩)]) ⟨none, []⟩ =
      ⟨⟨none, []⟩, false, false⟩ :=
  ⟨(init_applies_only_dataLogger1 0 [("d9", ⟨none, none⟩)] ⟨none, []⟩).1,
   (init_applies_only_dataLogger1 0 [("d9", ⟨none, none⟩)] ⟨none, []⟩).2 (by decide)⟩

/-- C8 counterexample: for a non-Safari client, the watchdog firing while
the socket is still CONNECTING changes nothing — the controller stays in
its connecting state (`wsConnecting` still `true`, socket untouched) and
no reload happens; there is no transition to a closed state. -/
theorem watchdog_counterexample :
    watchdogFire false ⟨.connecting⟩ ⟨some ⟨.connecting⟩, true⟩ =
      (⟨some ⟨.connecting⟩, true⟩, false) ∧
    (⟨some ⟨.connecting⟩, true⟩ : ControllerState).wsConnecting = true := by
  constructor
  · rfl
  · rfl

/-- C8 (amended): the connect-timeout watchdog never mutates controller
state; it triggers a full page reload exactly when it fires while the
socket is still not OPEN and the client is Safari, and does nothing
otherwise. -/
theorem watchdog_behavior (safari : Bool) (s : Socket) (st : ControllerState) :
    (watchdogFire safari s st).1 = st ∧
    ((watchdogFire safari s st).2 = true ↔ (s.readyState ≠ .opened ∧ safari = true)) := by
  unfold watchdogFire
  by_cases h : s.readyState = .opened
  · simp [h]
  · simp [h]

/-- C9: a frame with an unrecognized `type` leaves the model state
entirely unchanged and closes nothing; an undecodable payload appends an
error activity entry but leaves every Desired/Actual Pair unchanged and
closes nothing — the session continues in both cases. -/
theorem unrecognized_ignored (t : Nat) (ty raw : String) (st : ModelState) :
    processMessage t (.other ty) st = ⟨st, false, false⟩ ∧
    (processMessage t (.malformed raw) st).state.currentDevice = st.currentDevice ∧
    (processMessage t (.malformed raw) st).closedConn = false := by
  exact ⟨rfl, rfl, rfl⟩

/-- C3 counterexample: in the real teardown cascade — downstream close,
then the upstream close event induced by the close call it issued — the
keepalive timer is cancelled twice, not exactly once, and a close call
comes back on the already-closed downstream side: the source has no
already-closing guard, so the second trigger is not a no-op.  Moreover a
lone downstream error cancels the timer zero times. -/
theorem teardown_counterexample :
    (runBridge [.clientClose, .reconcilerClose]).clearIntervalCalls = 2 ∧
    (runBridge [.clientClose, .reconcilerClose]).reconcilerCloseCalls = 1 ∧
    (runBridge [.clientClose, .reconcilerClose]).clientCloseCalls = 1 ∧
    (runBridge [.clientError]).clearIntervalCalls = 0 := by
  refine ⟨rfl, rfl, rfl, rfl⟩

/-- C3 (amended): each teardown trigger acts unconditionally — a
downstream close cancels the keepalive timer and issues one close call
on the upstream side; an upstream close cancels the timer and issues one
close call on the downstream side; a downstream error issues one close
call on the upstream side without touching the timer (and symmetrically
for an upstream error); there is no already-closing guard, so each
further trigger repeats its (idempotent) actions. -/
theorem teardown_per_trigger (st : BridgeState) :
    (stepBridge st .clientClose).clearIntervalCalls = st.clearIntervalCalls + 1 ∧
    (stepBridge st .clientClose).reconcilerCloseCalls = st.reconcilerCloseCalls + 1 ∧
    (stepBridge st .clientClose).clientCloseCalls = st.clientCloseCalls ∧
    (stepBridge st .clientClose).pingTimerActive = false ∧
    (stepBridge st .reconcilerClose).clearIntervalCalls = st.clearIntervalCalls + 1 ∧
    (stepBridge st .reconcilerClose).clientCloseCalls = st.clientCloseCalls + 1 ∧
    (stepBridge st .reconcilerClose).reconcilerCloseCalls = st.reconcilerCloseCalls ∧
    (stepBridge st .reconcilerClose).pingTimerActive = false ∧
    (stepBridge st .clientError).clearIntervalCalls = st.clearIntervalCalls ∧
    (stepBridge st .clientError).reconcilerCloseCalls = st.reconcilerCloseCalls + 1 ∧
    (stepBridge st .clientError).pingTimerActive = st.pingTimerActive ∧
    (stepBridge st .reconcilerError).clearIntervalCalls = st.clearIntervalCalls ∧
    (stepBridge st .reconcilerError).clientCloseCalls = st.clientCloseCalls + 1 := by
  refine ⟨rfl, rfl, rfl, rfl, rfl, rfl, rfl, rfl, rfl, rfl, rfl, rfl, rfl⟩

/-- C10: a frame arriving on one endpoint while the opposite endpoint is
not OPEN leaves the bridge state completely unchanged — nothing is
queued, no counter moves, no error effect is recorded, so the frame can
never be delivered later; in particular a browser frame sent while the
upstream link is still CONNECTING is lost. -/
theorem frame_dropped (st : BridgeState) (data : String) :
    (st.reconcilerState ≠ .opened → stepBridge st (.clientMessage data) = st) ∧
    (st.clientState ≠ .opened → stepBridge st (.reconcilerMessage data) = st) := by
  constructor
  · intro h
    simp [stepBridge, h]
  · intro h
    simp [stepBridge, h]

/-- Witness for `frame_dropped`: a browser frame sent while the upstream
socket is still CONNECTING is dropped without a trace. -/
theorem frame_dropped_witness :
    stepBridge ⟨.opened, .connecting, true, 0, 0, 0, [], []⟩ (.clientMessage "hello") =
      ⟨.opened, .connecting, true, 0, 0, 0, [], []⟩ ∧
    stepBridge ⟨.connecting, .opened, true, 0, 0, 0, [], []⟩ (.reconcilerMessage "init") =
      ⟨.connecting, .opened, true, 0, 0, 0, [], []⟩ :=
  ⟨(frame_dropped ⟨.opened, .connecting, true, 0, 0, 0, [], []⟩ "hello").1 (by decide),
   (frame_dropped ⟨.connecting, .opened, true, 0, 0, 0, [], []⟩ "init").2 (by decide)⟩

end Colonies
